import Mathlib

/-!
Verification of the holder-radar scoring pipeline (src/app.py).

The scoring core of the app is shallowly embedded here.  Python floats are
modelled as exact rationals, with the NaN value tracked explicitly by the
`PF` type (NaN propagates through arithmetic and makes every comparison
false, as in IEEE/Python).  Nullable numeric row fields are modelled by
`NVal` (missing / NaN / finite number); the `genesis_date` field, which the
code treats as a string, is modelled by `GVal`.  A value on which Python's
`float(x)` raises (for example a non-numeric string) is modelled by the
`SVal.vStr` constructor of the type of inputs accepted by `scale`.

The Batteries rational-number operations are marked irreducible, which
blocks `decide` from evaluating concrete scores; they are re-marked
semireducible here (this changes elaboration only, not the meaning of any
statement, and every proof still passes the kernel).
-/

set_option allowUnsafeReducibility true

attribute [semireducible] Rat.mul Rat.add Rat.inv Rat.ofScientific Rat.sub Rat.div Rat.neg

/-- A possible input to `scale` (src/app.py line 72): `vNone` is Python
`None` (where `float` raises `TypeError`), `vNaN` is float NaN, `vNum q`
is a finite number, and `vStr` is a value on which `float` raises
`ValueError` (a non-numeric string). -/
inductive SVal where
  | vNone
  | vNaN
  | vNum (q : ℚ)
  | vStr
deriving DecidableEq

/-- A nullable numeric row field as delivered by the market-data frame:
absent/None, float NaN, or a finite number. -/
inductive NVal where
  | miss
  | nanv
  | fin (q : ℚ)
deriving DecidableEq

def NVal.toSVal : NVal → SVal
  | NVal.miss => SVal.vNone
  | NVal.nanv => SVal.vNaN
  | NVal.fin q => SVal.vNum q

/-- A Python float value: NaN or a finite number (modelled exactly as a
rational). -/
inductive PF where
  | nan
  | num (q : ℚ)
deriving DecidableEq

def PF.add : PF → PF → PF
  | PF.num a, PF.num b => PF.num (a + b)
  | _, _ => PF.nan

def PF.sub : PF → PF → PF
  | PF.num a, PF.num b => PF.num (a - b)
  | _, _ => PF.nan

def PF.mul : PF → PF → PF
  | PF.num a, PF.num b => PF.num (a * b)
  | _, _ => PF.nan

/-- Division of Python floats.  A zero divisor would raise
`ZeroDivisionError` in Python; every division in the embedded code is
guarded (nonzero divisor checked beforehand, or the exception caught), so
the `PF.nan` returned here for a zero divisor is never reached. -/
def PF.div : PF → PF → PF
  | PF.num a, PF.num b => if b = 0 then PF.nan else PF.num (a / b)
  | _, _ => PF.nan

instance : Add PF := ⟨PF.add⟩
instance : Sub PF := ⟨PF.sub⟩
instance : Mul PF := ⟨PF.mul⟩
instance : Div PF := ⟨PF.div⟩

/-- `x < c` on Python floats: false when `x` is NaN. -/
def PF.ltQ : PF → ℚ → Bool
  | PF.nan, _ => false
  | PF.num a, c => decide (a < c)

/-- `x > c` on Python floats: false when `x` is NaN. -/
def PF.gtQ : PF → ℚ → Bool
  | PF.nan, _ => false
  | PF.num a, c => decide (c < a)

def PF.toSVal : PF → SVal
  | PF.nan => SVal.vNaN
  | PF.num q => SVal.vNum q

/-- Python `min(a, b)` on (finite) floats. -/
def pymin (a b : ℚ) : ℚ := if b < a then b else a

/-- Python `max(a, b)` on (finite) floats. -/
def pymax (a b : ℚ) : ℚ := if a < b then b else a

/-- `np.clip(v, 0.0, 1.0)` (src/app.py line 80). -/
def clip01 (v : ℚ) : ℚ := if v < 0 then 0 else if 1 < v then 1 else v

/-- `scale` (src/app.py lines 72-80): `float(x)` raising (`None` or a
non-numeric value) and NaN and `xmax == xmin` all give the neutral `0.5`;
otherwise the value is linearly interpolated and clipped to [0,1]. -/
def scale : SVal → ℚ → ℚ → ℚ
  | SVal.vNone, _, _ => 0.5
  | SVal.vStr, _, _ => 0.5
  | SVal.vNaN, _, _ => 0.5
  | SVal.vNum q, xmin, xmax =>
      if xmax = xmin then 0.5 else clip01 ((q - xmin) / (xmax - xmin))

/-- The `genesis_date` input to `years_since`: Python `None` (or any falsy
value, including the empty string), a truthy non-string value, or a
string. -/
inductive GVal where
  | gNone
  | gNonStr
  | gStr (s : String)
deriving DecidableEq

/-- Decimal digits to a natural number; fails on the empty list or on a
non-digit, as Python `int()` does. -/
def natOfDigits (l : List Char) : Option ℕ :=
  if l.isEmpty then Option.none
  else if l.all Char.isDigit then
    Option.some (l.foldl (fun a c => 10 * a + (c.toNat - 48)) 0)
  else Option.none

/-- Python `int(s)` on a component of the date string: surrounding
whitespace is stripped and an optional sign is allowed before the digits
(underscore digit grouping, which never occurs in a date component, is not
modelled). -/
def pyIntChars (l : List Char) : Option ℤ :=
  let t := ((l.dropWhile Char.isWhitespace).reverse.dropWhile Char.isWhitespace).reverse
  match t with
  | [] => Option.none
  | c :: rest =>
      if c = '+' then (natOfDigits rest).map (fun n => (n : ℤ))
      else if c = '-' then (natOfDigits rest).map (fun n => -(n : ℤ))
      else (natOfDigits (c :: rest)).map (fun n => (n : ℤ))

/-- Python `str.split("-")`. -/
def splitOnDash (l : List Char) : List (List Char) :=
  match l with
  | [] => [[]]
  | c :: rest =>
      let r := splitOnDash rest
      if c = '-' then [] :: r
      else
        match r with
        | [] => [[c]]
        | h :: t => (c :: h) :: t

def isLeap (y : ℕ) : Bool := y % 4 = 0 && (y % 100 ≠ 0 || y % 400 = 0)

def daysInMonth (y m : ℕ) : ℕ :=
  if m = 2 then (if isLeap y then 29 else 28)
  else if m = 4 || m = 6 || m = 9 || m = 11 then 30
  else 31

def daysBeforeMonth (y m : ℕ) : ℕ :=
  (List.range (m - 1)).foldl (fun acc i => acc + daysInMonth y (i + 1)) 0

/-- `datetime.date.toordinal`: day number of the proleptic Gregorian
calendar, with 0001-01-01 as day 1. -/
def toOrdinal (y m d : ℕ) : ℕ :=
  365 * (y - 1) + (y - 1) / 4 - (y - 1) / 100 + (y - 1) / 400 + daysBeforeMonth y m + d

/-- The validity check of the `datetime.date` constructor. -/
def validDate (y m d : ℕ) : Bool :=
  1 ≤ y && y ≤ 9999 && 1 ≤ m && m ≤ 12 && 1 ≤ d && d ≤ daysInMonth y m

/-- Lines 87-89 of `years_since`: split the string on `-`, parse the first
three components with `int`, and build a `date`; `Option.none` models any
of the exceptions (`IndexError`, `ValueError`) the `except` catches.  A
successful parse yields the date's ordinal. -/
def dateFromString (s : String) : Option ℕ :=
  match splitOnDash s.toList with
  | p0 :: p1 :: p2 :: _ =>
      match pyIntChars p0, pyIntChars p1, pyIntChars p2 with
      | Option.some yi, Option.some mi, Option.some di =>
          if 1 ≤ yi ∧ 1 ≤ mi ∧ 1 ≤ di then
            if validDate yi.toNat mi.toNat di.toNat then
              Option.some (toOrdinal yi.toNat mi.toNat di.toNat)
            else Option.none
          else Option.none
      | _, _, _ => Option.none
  | _ => Option.none

/-- `years_since` (src/app.py lines 83-92), with `date.today()` made an
explicit parameter `today` (an ordinal day number).  Null/falsy and
non-string inputs and every parse failure give `0.0`; the function is
total, so it never raises. -/
def years_since (today : ℕ) (g : GVal) : ℚ :=
  match g with
  | GVal.gNone => 0
  | GVal.gNonStr => 0
  | GVal.gStr s =>
      match dateFromString s with
      | Option.none => 0
      | Option.some o => pymax (((today : ℚ) - (o : ℚ)) / 365.25) 0.0

/-- One row of the market-data frame, restricted to the fields the scoring
core reads.  `symbol` and `name` model the results of `str(...)` applied
to those fields. -/
structure Row where
  symbol : String := ""
  name : String := ""
  market_cap_rank : NVal := NVal.miss
  market_cap : NVal := NVal.miss
  total_volume : NVal := NVal.miss
  ath_change_percentage : NVal := NVal.miss
  circulating_supply : NVal := NVal.miss
  max_supply : NVal := NVal.miss
  fully_diluted_valuation : NVal := NVal.miss
  price_change_percentage_7d_in_currency : NVal := NVal.miss
  price_change_percentage_30d_in_currency : NVal := NVal.miss
  developer_score : NVal := NVal.miss
  community_score : NVal := NVal.miss
  sentiment_votes_up_percentage : NVal := NVal.miss
  genesis_date : GVal := GVal.gNone
deriving DecidableEq

/-- ASCII lowercasing of one character, as Python `str.lower` acts on the
ASCII symbols and names the data source delivers. -/
def lowerChar (c : Char) : Char :=
  if 'A' ≤ c ∧ c ≤ 'Z' then Char.ofNat (c.toNat + 32) else c

/-- Python `str.lower()` (ASCII range). -/
def pyLower (s : String) : String := ⟨s.data.map lowerChar⟩

/-- Python `needle in hay` on strings: substring containment. -/
def strContains (hay needle : String) : Bool :=
  (List.range (hay.data.length + 1)).any
    (fun i => ((hay.data.drop i).take needle.data.length) == needle.data)

def stable_syms : List String :=
  [ "usdt", "usdc", "busd", "dai", "tusd", "usdd", "usde",
    "gusd", "usdp", "fdusd", "eusd", "eurt", "euroc", "susd",
    "lusd", "frax", "pai", "usdx" ]

def wrapped_syms : List String := [ "wbtc", "weth", "wsteth", "wsol", "wavax" ]

/-- `is_stable_or_wrapped` (src/app.py lines 95-119). -/
def is_stable_or_wrapped (r : Row) : Bool :=
  if stable_syms.contains (pyLower r.symbol) then true
  else if strContains (pyLower r.name) "wrapped" then true
  else if strContains (pyLower r.name) "staked ether"
       || strContains (pyLower r.name) "staked eth" then true
  else if wrapped_syms.contains (pyLower r.symbol) then true
  else false

/-- The exclusion policy as §4.2 of the specification words it: a
disjunction of the four conditions, case-insensitive.  Stated for
comparison with `is_stable_or_wrapped`, the source's if-chain. -/
def specExcluded (r : Row) : Bool :=
  stable_syms.contains (pyLower r.symbol)
  || strContains (pyLower r.name) "wrapped"
  || strContains (pyLower r.name) "staked ether"
  || strContains (pyLower r.name) "staked eth"
  || wrapped_syms.contains (pyLower r.symbol)

/-- `score_market` (src/app.py lines 124-151). -/
def score_market (r : Row) : ℚ :=
  let rank : ℚ :=
    match r.market_cap_rank with
    | NVal.fin q => q
    | _ => 200
  let rank_score := scale (SVal.vNum (200 - rank)) 0 199
  let liqR : PF :=
    match r.market_cap with
    | NVal.fin m =>
        if m = 0 then PF.num 0
        else (match r.total_volume with
              | NVal.miss => PF.num 0
              | NVal.nanv => PF.nan
              | NVal.fin v => PF.num v) / PF.num m
    | _ => PF.num 0
  let liq_score := scale liqR.toSVal 0.01 0.30
  let ath_score : ℚ :=
    match r.ath_change_percentage with
    | NVal.fin a =>
        let dd := -a
        if dd < 10 then 0.2
        else if dd > 80 then 0.3
        else 0.2 + 0.8 * (dd - 10) / 70
    | _ => 0.5
  25 * (0.4 * rank_score + 0.3 * liq_score + 0.3 * ath_score)

/-- The `circ_score` computed at src/app.py lines 155-170 inside
`score_tokenomics`: missing/NaN, falsy (`0.0`) and zero `max_supply` give
the neutral `0.4`; otherwise `float(circ)/float(max_supply)` is attempted
(`None` raises and the handler substitutes `0.5`; NaN propagates) and fed
to the piecewise curve, whose comparisons are false on NaN. -/
def circScore (circ maxs : NVal) : PF :=
  match maxs with
  | NVal.fin m =>
      if m = 0 then PF.num 0.4
      else
        let ratio : PF :=
          match circ with
          | NVal.miss => PF.num 0.5
          | NVal.nanv => PF.nan / PF.num m
          | NVal.fin c => PF.num c / PF.num m
        if ratio.ltQ 0.3 then PF.num 0.2
        else if ratio.gtQ 0.95 then PF.num 0.7
        else PF.num 0.2 + PF.num 0.8 * (ratio - PF.num 0.3) / (PF.num 0.95 - PF.num 0.3)
  | _ => PF.num 0.4

/-- The `dilution_score` computed at src/app.py lines 172-187 inside
`score_tokenomics`: missing/NaN `market_cap` or `market_cap == 0` or
missing/NaN/falsy/nonpositive `fully_diluted_valuation` give the neutral
`0.5`; otherwise the ratio is fed to the piecewise curve. -/
def dilutionScore (mc fdv : NVal) : ℚ :=
  match mc, fdv with
  | NVal.fin m, NVal.fin f =>
      if m = 0 then 0.5
      else if f = 0 then 0.5
      else if f ≤ 0 then 0.5
      else
        let dR := m / f
        if dR ≥ 0.7 then 1.0
        else if dR ≤ 0.3 then 0.3
        else 0.3 + 0.7 * (dR - 0.3) / (0.7 - 0.3)
  | _, _ => 0.5

/-- `score_tokenomics` (src/app.py lines 154-192). -/
def score_tokenomics (r : Row) : PF :=
  let circ_score := circScore r.circulating_supply r.max_supply
  let dilution_score := dilutionScore r.market_cap r.fully_diluted_valuation
  let inflation_score : ℚ := 0.6
  PF.num 25 * (PF.num 0.4 * circ_score + PF.num (0.4 * dilution_score)
    + PF.num (0.2 * inflation_score))

/-- `score_momentum_narr` (src/app.py lines 195-204). -/
def score_momentum_narr (r : Row) : ℚ :=
  let mom30 := scale r.price_change_percentage_30d_in_currency.toSVal (-20) 60
  let mom7 := scale r.price_change_percentage_7d_in_currency.toSVal (-15) 40
  let narrative_score : ℚ := 0.6
  20 * (0.4 * mom30 + 0.3 * mom7 + 0.3 * narrative_score)

/-- `score_whales_deriv` (src/app.py lines 207-208): the constant neutral
placeholder. -/
def score_whales_deriv (_r : Row) : ℚ := 10.0

/-- `score_personal_fundamental` (src/app.py lines 211-231), with the
current date an explicit parameter (it reaches `years_since`). -/
def score_personal_fundamental (today : ℕ) (r : Row) : ℚ :=
  let dev_norm := scale r.developer_score.toSVal 0 100
  let comm_norm := scale r.community_score.toSVal 0 100
  let sent_norm := scale r.sentiment_votes_up_percentage.toSVal 50 90
  let years := years_since today r.genesis_date
  let years_capped := pymin years 10
  let age_norm := scale (SVal.vNum years_capped) 0 10
  10 * (0.35 * dev_norm + 0.25 * comm_norm + 0.25 * sent_norm + 0.15 * age_norm)

/-- A scored asset: the row together with the five sub-score columns and
the `holder_score_100` column added by `load_data` (src/app.py lines
271-283). -/
structure ScoredAsset where
  row : Row
  score_market : ℚ
  score_tokenomics : PF
  score_momentum_narr : ℚ
  score_whales_deriv : ℚ
  score_personal : ℚ
  holder_score_100 : PF
deriving DecidableEq

/-- The scoring stage of `load_data` (src/app.py lines 271-283) for one
row: the five sub-score columns and their sum. -/
def scoreOne (today : ℕ) (r : Row) : ScoredAsset :=
  { row := r
    score_market := score_market r
    score_tokenomics := score_tokenomics r
    score_momentum_narr := score_momentum_narr r
    score_whales_deriv := score_whales_deriv r
    score_personal := score_personal_fundamental today r
    holder_score_100 :=
      PF.num (score_market r) + score_tokenomics r + PF.num (score_momentum_narr r)
        + PF.num (score_whales_deriv r) + PF.num (score_personal_fundamental today r) }

/-- `compute_scores` (§6 of the specification): the scoring stage of
`load_data` applied row-wise to a sequence of records. -/
def compute_scores (today : ℕ) (rs : List Row) : List ScoredAsset :=
  rs.map (scoreOne today)


theorem clip01_eq_min_max (v : ℚ) : clip01 v = min (max v 0) 1 := by
  unfold clip01
  split_ifs with h1 h2
  · rw [max_eq_right h1.le, min_eq_left]
    norm_num
  · rw [max_eq_left (not_lt.mp h1), min_eq_right h2.le]
  · rw [max_eq_left (not_lt.mp h1), min_eq_left (not_lt.mp h2)]

theorem clip01_bounds (v : ℚ) : 0 ≤ clip01 v ∧ clip01 v ≤ 1 := by
  unfold clip01
  split_ifs with h1 h2
  · exact ⟨le_refl 0, zero_le_one⟩
  · exact ⟨zero_le_one, le_refl 1⟩
  · exact ⟨not_lt.mp h1, not_lt.mp h2⟩

/-- C1: the `holder_score_100` column equals exactly the sum of the five
sub-score columns, each of which is the corresponding sub-score function
applied to the same record — there is no independent computation path;
and when the tokenomics score is a (non-NaN) number the float sum is the
exact rational sum of the five sub-scores. -/
theorem holder_score_is_exact_sum (today : ℕ) (r : Row) :
    (scoreOne today r).holder_score_100
      = PF.num ((scoreOne today r).score_market)
        + (scoreOne today r).score_tokenomics
        + PF.num ((scoreOne today r).score_momentum_narr)
        + PF.num ((scoreOne today r).score_whales_deriv)
        + PF.num ((scoreOne today r).score_personal)
    ∧ (scoreOne today r).score_market = score_market r
    ∧ (scoreOne today r).score_tokenomics = score_tokenomics r
    ∧ (scoreOne today r).score_momentum_narr = score_momentum_narr r
    ∧ (scoreOne today r).score_whales_deriv = score_whales_deriv r
    ∧ (scoreOne today r).score_personal = score_personal_fundamental today r
    ∧ ∀ t : ℚ, score_tokenomics r = PF.num t →
        (scoreOne today r).holder_score_100
          = PF.num (score_market r + t + score_momentum_narr r
              + score_whales_deriv r + score_personal_fundamental today r) := by
  refine ⟨rfl, rfl, rfl, rfl, rfl, rfl, ?_⟩
  intro t h
  show PF.num (score_market r) + score_tokenomics r + PF.num (score_momentum_narr r)
      + PF.num (score_whales_deriv r) + PF.num (score_personal_fundamental today r) = _
  rw [h]
  rfl

theorem holder_score_is_exact_sum_witness :
    (scoreOne 738886 {}).holder_score_100
      = PF.num (score_market {} + 12 + score_momentum_narr {}
          + score_whales_deriv {} + score_personal_fundamental 738886 {}) :=
  (holder_score_is_exact_sum 738886 {}).2.2.2.2.2.2 12 (by decide)

/-- C2: `scale` returns exactly 0.5 on missing (`None`), NaN, non-numeric
input, or equal bounds; otherwise it returns the clipped interpolation
`clip((x-xmin)/(xmax-xmin), 0, 1)`; the result is always in [0,1] (and the
function is total, so it never fails). -/
theorem scale_contract :
    (∀ a b : ℚ, scale SVal.vNone a b = 0.5)
  ∧ (∀ a b : ℚ, scale SVal.vNaN a b = 0.5)
  ∧ (∀ a b : ℚ, scale SVal.vStr a b = 0.5)
  ∧ (∀ q a : ℚ, scale (SVal.vNum q) a a = 0.5)
  ∧ (∀ q a b : ℚ, b ≠ a →
      scale (SVal.vNum q) a b = min (max ((q - a) / (b - a)) 0) 1)
  ∧ (∀ (x : SVal) (a b : ℚ), 0 ≤ scale x a b ∧ scale x a b ≤ 1) := by
  refine ⟨fun a b => rfl, fun a b => rfl, fun a b => rfl,
    fun q a => by simp [scale], ?_, ?_⟩
  · intro q a b h
    show (if b = a then 0.5 else clip01 ((q - a) / (b - a))) = _
    rw [if_neg h, clip01_eq_min_max]
  · intro x a b
    cases x with
    | vNone => exact ⟨by norm_num [scale], by norm_num [scale]⟩
    | vNaN => exact ⟨by norm_num [scale], by norm_num [scale]⟩
    | vStr => exact ⟨by norm_num [scale], by norm_num [scale]⟩
    | vNum q =>
        show 0 ≤ (if b = a then 0.5 else clip01 ((q - a) / (b - a)))
          ∧ (if b = a then 0.5 else clip01 ((q - a) / (b - a))) ≤ 1
        split_ifs with hba
        · exact ⟨by norm_num, by norm_num⟩
        · exact clip01_bounds _

theorem scale_contract_witness :
    scale (SVal.vNum 3) 0 1 = min (max ((3 - 0) / (1 - 0)) 0) 1 :=
  scale_contract.2.2.2.2.1 3 0 1 (by decide)

/-- C3 fails on the code: for a record with every fundamental missing,
`score_personal_fundamental` returns 4.25, not 5.0, because
`scale(0, 0, 10)` is 0.0, not 0.5 — the bounds differ, so the neutral
branch is not taken and 0 interpolates to 0. -/
theorem personal_all_missing_counterexample :
    score_personal_fundamental 738886 {} = 4.25
    ∧ score_personal_fundamental 738886 {} ≠ 5.0
    ∧ scale (SVal.vNum 0) 0 10 = 0 :=
  ⟨by decide, by decide, by decide⟩

/-- C3 amended: a record whose fundamentals are all missing still gets a
non-null `score_personal`, with neutral defaults dev_norm = comm_norm =
sent_norm = 0.5 but age_norm = scale(min(years_since(None), 10), 0, 10) =
scale(0, 0, 10) = 0.0, so score_personal = 10*(0.85*0.5) = 4.25 exactly. -/
theorem personal_all_missing_amended (today : ℕ) (r : Row)
    (hdev : r.developer_score = NVal.miss)
    (hcomm : r.community_score = NVal.miss)
    (hsent : r.sentiment_votes_up_percentage = NVal.miss)
    (hgen : r.genesis_date = GVal.gNone) :
    score_personal_fundamental today r = 4.25 := by
  simp only [score_personal_fundamental, hdev, hcomm, hsent, hgen]
  norm_num [years_since, scale, pymin, clip01, NVal.toSVal]

theorem personal_all_missing_amended_witness :
    score_personal_fundamental 738886 {} = 4.25 :=
  personal_all_missing_amended 738886 {} rfl rfl rfl rfl

/-- C4 fails on the code: a record whose `circulating_supply` is float NaN
(pandas' encoding of a missing value in a numeric column) while
`max_supply` is a valid positive number makes `score_tokenomics` return
NaN — `float(nan)/float(max_supply)` is NaN, both piecewise comparisons
are false, and the linear branch propagates NaN into the score — so this
missing field does produce a NaN, out-of-range sub-score (the `pd.isna`
guard protects `max_supply` but not `circulating_supply`). -/
theorem tokenomics_nan_failing_input :
    score_tokenomics
      { circulating_supply := NVal.nanv, max_supply := NVal.fin 21000000 }
      = PF.nan := by
  decide

/-- C5 fails on the code: a negative `max_supply` is not treated as "no
ratio available" — it passes the guard (not NaN, truthy, nonzero) and is
used as the ratio's divisor.  With `circulating_supply = 10` and
`max_supply = -5` the ratio is -2 < 0.3, so the circulation component is
0.2, not the neutral 0.4. -/
theorem circ_negative_max_counterexample :
    circScore (NVal.fin 10) (NVal.fin (-5)) = PF.num 0.2
    ∧ circScore (NVal.fin 10) (NVal.fin (-5)) ≠ PF.num 0.4 :=
  ⟨by decide, by decide⟩

/-- C5 amended: a missing (None/NaN) or zero `max_supply` gives the
neutral circulation default 0.4, but a negative `max_supply` is used as
the divisor of the circulation ratio, which then feeds the piecewise
curve. -/
theorem circ_default_amended :
    (∀ c, circScore c NVal.miss = PF.num 0.4)
  ∧ (∀ c, circScore c NVal.nanv = PF.num 0.4)
  ∧ (∀ c, circScore c (NVal.fin 0) = PF.num 0.4)
  ∧ (∀ c m : ℚ, m < 0 →
      circScore (NVal.fin c) (NVal.fin m) =
        (if c / m < 0.3 then PF.num 0.2
         else if c / m > 0.95 then PF.num 0.7
         else PF.num (0.2 + 0.8 * (c / m - 0.3) / (0.95 - 0.3)))) := by
  refine ⟨fun c => rfl, fun c => rfl, fun c => by simp [circScore], ?_⟩
  intro c m hm
  have hm0 : m ≠ 0 := ne_of_lt hm
  have hdiv : PF.num c / PF.num m = PF.num (c / m) := by
    show PF.div (PF.num c) (PF.num m) = _
    simp [PF.div, hm0]
  simp only [circScore, if_neg hm0, hdiv]
  by_cases h1 : c / m < 0.3
  · simp [PF.ltQ, h1]
  · by_cases h2 : c / m > 0.95
    · simp [PF.ltQ, PF.gtQ, h1, h2]
    · simp only [PF.ltQ, PF.gtQ, decide_eq_true_eq, h1, h2, if_neg, if_false,
        decide_eq_false_iff_not, not_false_iff]
      rfl

theorem circ_default_amended_witness :
    circScore (NVal.fin 10) (NVal.fin (-5)) =
      (if (10 : ℚ) / (-5) < 0.3 then PF.num 0.2
       else if (10 : ℚ) / (-5) > 0.95 then PF.num 0.7
       else PF.num (0.2 + 0.8 * ((10 : ℚ) / (-5) - 0.3) / (0.95 - 0.3))) :=
  circ_default_amended.2.2.2 10 (-5) (by decide)

/-- C6 fails on the code: with `market_cap` present and equal to 0 and
`fdv > 0`, the guard `mc == 0` fires and the dilution component is the
neutral 0.5, not the 0.3 the spec's formula prescribes for
d_ratio = 0 ≤ 0.3. -/
theorem dilution_zero_mc_counterexample :
    dilutionScore (NVal.fin 0) (NVal.fin 100) = 0.5
    ∧ dilutionScore (NVal.fin 0) (NVal.fin 100) ≠ 0.3 :=
  ⟨by decide, by decide⟩

/-- C6 amended: the dilution component equals the piecewise formula on
d_ratio = market_cap/fdv when both fields are present as numbers, the
market cap is nonzero and fdv > 0; in every other case — missing/NaN
market cap, market cap equal to 0 (an explicit division guard, yielding
the neutral, per §7), missing/NaN fdv, or fdv ≤ 0 — it is the neutral
0.5. -/
theorem dilution_amended :
    (∀ f, dilutionScore NVal.miss f = 0.5)
  ∧ (∀ f, dilutionScore NVal.nanv f = 0.5)
  ∧ (∀ m, dilutionScore m NVal.miss = 0.5)
  ∧ (∀ m, dilutionScore m NVal.nanv = 0.5)
  ∧ (∀ f : ℚ, dilutionScore (NVal.fin 0) (NVal.fin f) = 0.5)
  ∧ (∀ m f : ℚ, f ≤ 0 → dilutionScore (NVal.fin m) (NVal.fin f) = 0.5)
  ∧ (∀ m f : ℚ, m ≠ 0 → 0 < f →
      dilutionScore (NVal.fin m) (NVal.fin f) =
        (if m / f ≥ 0.7 then 1.0
         else if m / f ≤ 0.3 then 0.3
         else 0.3 + 0.7 * (m / f - 0.3) / (0.7 - 0.3))) := by
  refine ⟨fun f => by cases f <;> rfl, fun f => by cases f <;> rfl,
    fun m => by cases m <;> rfl, fun m => by cases m <;> rfl,
    fun f => by simp [dilutionScore], ?_, ?_⟩
  · intro m f hf
    by_cases hm : m = 0
    · simp [dilutionScore, hm]
    · by_cases hf0 : f = 0
      · simp [dilutionScore, hm, hf0]
      · simp [dilutionScore, hm, hf0, hf]
  · intro m f hm hf
    have hf0 : f ≠ 0 := ne_of_gt hf
    have hff : ¬ f ≤ 0 := not_le.mpr hf
    simp only [dilutionScore, if_neg hm, if_neg hf0, if_neg hff]

theorem dilution_amended_witness :
    dilutionScore (NVal.fin 50) (NVal.fin 100) =
      (if (50 : ℚ) / 100 ≥ 0.7 then 1.0
       else if (50 : ℚ) / 100 ≤ 0.3 then 0.3
       else 0.3 + 0.7 * ((50 : ℚ) / 100 - 0.3) / (0.7 - 0.3))
    ∧ dilutionScore (NVal.fin 7) (NVal.fin (-2)) = 0.5 :=
  ⟨dilution_amended.2.2.2.2.2.2 50 100 (by decide) (by decide),
   dilution_amended.2.2.2.2.2.1 7 (-2) (by decide)⟩

/-- C7: `years_since` returns 0.0 on null/falsy and on non-string input,
and on any parse failure (malformed string or invalid calendar date, both
of which make `dateFromString` fail); it is a total function, so it never
raises; and on a string parsing to a valid date it returns the elapsed
days divided by 365.25 — a value that is always ≥ 0 and equals
(today − date)/365.25 exactly whenever the date is not in the future. -/
theorem years_since_contract :
    (∀ t : ℕ, years_since t GVal.gNone = 0)
  ∧ (∀ t : ℕ, years_since t GVal.gNonStr = 0)
  ∧ (∀ (t : ℕ) (s : String), dateFromString s = Option.none →
      years_since t (GVal.gStr s) = 0)
  ∧ (∀ (t o : ℕ) (s : String), dateFromString s = Option.some o →
      0 ≤ years_since t (GVal.gStr s)
      ∧ (o ≤ t → years_since t (GVal.gStr s) = ((t : ℚ) - (o : ℚ)) / 365.25)) := by
  refine ⟨fun t => rfl, fun t => rfl, ?_, ?_⟩
  · intro t s h
    simp [years_since, h]
  · intro t o s h
    simp only [years_since, h]
    constructor
    · unfold pymax
      split_ifs with hlt
      · norm_num
      · have h0 : (0.0 : ℚ) ≤ ((t : ℚ) - (o : ℚ)) / 365.25 := not_lt.mp hlt
        calc (0 : ℚ) = 0.0 := by norm_num
          _ ≤ _ := h0
    · intro hle
      unfold pymax
      rw [if_neg]
      rw [not_lt]
      apply div_nonneg
      · have : (o : ℚ) ≤ (t : ℚ) := by exact_mod_cast hle
        calc (0.0 : ℚ) = 0 := by norm_num
          _ ≤ (t : ℚ) - (o : ℚ) := sub_nonneg.mpr this
      · norm_num

theorem years_since_contract_witness :
    0 ≤ years_since 738886 (GVal.gStr "2015-07-30")
    ∧ years_since 738886 (GVal.gStr "2015-07-30")
        = ((738886 : ℚ) - (735809 : ℚ)) / 365.25 := by
  have h := years_since_contract.2.2.2 738886 735809 "2015-07-30" (by decide)
  exact ⟨h.1, h.2 (by decide)⟩

/-- C8: the classifier implements the ordered, case-insensitive policy the
specification states — lowercased symbol in the stablecoin set, name
containing "wrapped", name containing "staked ether" or "staked eth",
symbol in the wrapped set {wbtc, weth, wsteth, wsol, wavax}, and false
otherwise — together with the claim's concrete instances ("usdt" in any
case, "Wrapped Bitcoin", and false for btc/Bitcoin). -/
theorem is_excluded_policy :
    (∀ r : Row, is_stable_or_wrapped r = specExcluded r)
  ∧ is_stable_or_wrapped { symbol := "USDT", name := "Tether" } = true
  ∧ is_stable_or_wrapped { symbol := "UsDt", name := "Tether" } = true
  ∧ is_stable_or_wrapped { symbol := "xbt", name := "Wrapped Bitcoin" } = true
  ∧ is_stable_or_wrapped { symbol := "steth", name := "Lido Staked Ether" } = true
  ∧ is_stable_or_wrapped { symbol := "wavax", name := "AVAX bridge" } = true
  ∧ is_stable_or_wrapped { symbol := "btc", name := "Bitcoin" } = false := by
  refine ⟨?_, by decide, by decide, by decide, by decide, by decide, by decide⟩
  intro r
  unfold is_stable_or_wrapped specExcluded
  cases h1 : stable_syms.contains (pyLower r.symbol) <;>
    cases h2 : strContains (pyLower r.name) "wrapped" <;>
      cases h3 : strContains (pyLower r.name) "staked ether" <;>
        cases h4 : strContains (pyLower r.name) "staked eth" <;>
          cases h5 : wrapped_syms.contains (pyLower r.symbol) <;>
            simp [h1, h2, h3, h4, h5]

def rowGenesis2020 : Row := { genesis_date := GVal.gStr "2020-01-01" }

/-- C9 fails on the code: `score_personal_fundamental` reads the ambient
current date through `years_since` (which calls `date.today()`), so two
runs of the score computation on the same records give different output
when the current date differs — here 2024-01-01 (ordinal 738886) versus
2025-01-01 (ordinal 739252) on an asset with genesis date 2020-01-01. -/
theorem compute_scores_ambient_date_counterexample :
    compute_scores 738886 [rowGenesis2020] ≠ compute_scores 739252 [rowGenesis2020] := by
  decide

/-- C9 amended: for a fixed current date the scoring pipeline is pure and
deterministic — it is exactly the per-record map of `scoreOne`, so every
asset's scores are a function of its own record alone and appending
further records never changes earlier outputs; the current date is the one
ambient input, read by `score_personal_fundamental` via `years_since`. -/
theorem compute_scores_amended (today : ℕ) (rs : List Row) :
    compute_scores today rs = rs.map (scoreOne today)
  ∧ (∀ r : Row, compute_scores today (rs ++ [r])
      = compute_scores today rs ++ [scoreOne today r]) := by
  refine ⟨rfl, ?_⟩
  intro r
  simp [compute_scores]

/-- C10: with `max_supply` present and nonzero and `circulating_supply`
missing (`None`), the circulation component does not raise: `float(None)`
raises `TypeError`, the handler substitutes ratio 0.5, and the linear
branch yields 0.2 + 0.8*(0.5-0.3)/0.65 = 29/65 ≈ 0.446 — distinct from
the no-ratio neutral 0.4 and from the generic neutral 0.5. -/
theorem circ_missing_supply_default (m : ℚ) (hm : m ≠ 0) :
    circScore NVal.miss (NVal.fin m)
      = PF.num (0.2 + 0.8 * (0.5 - 0.3) / (0.95 - 0.3))
    ∧ circScore NVal.miss (NVal.fin m) ≠ PF.num 0.4
    ∧ circScore NVal.miss (NVal.fin m) ≠ PF.num 0.5 := by
  have h1 : circScore NVal.miss (NVal.fin m)
      = PF.num (0.2 + 0.8 * (0.5 - 0.3) / (0.95 - 0.3)) := by
    simp only [circScore, if_neg hm]
    rfl
  refine ⟨h1, ?_, ?_⟩
  · rw [h1]; decide
  · rw [h1]; decide

theorem circ_missing_supply_default_witness :
    circScore NVal.miss (NVal.fin 21000000)
      = PF.num (0.2 + 0.8 * (0.5 - 0.3) / (0.95 - 0.3)) :=
  (circ_missing_supply_default 21000000 (by decide)).1
